import Mathlib

/-!
Verification of the request-metrics middleware in
`src/datadog/src/app_helper.py` against its specification.

The Python module is a set of Flask lifecycle hooks that forward
request/response attributes to a DogStatsd client.  We embed it shallowly:

* `Request` / `Response` model the Flask request and response objects; the
  dynamically-stashed attributes read with `getattr(request, name, default)`
  become `Option`-typed fields (a `none` means the attribute is absent, so
  the `getattr` default applies), while `request.start_time`, which is read
  with a plain attribute access, is an `Option` whose `none` case raises
  `AttributeError`.
* Each statsd call (`histogram`, `increment`, `gauge`, `distribution`) is
  an `Emission` value; a hook returns the ordered list of emissions it sent
  plus the value it returned.  The DogStatsd client is fire-and-forget over
  UDP and swallows socket errors, so an emission itself never raises.
* A hook that can raise a Python exception returns `Except PyErr …`;
  timestamps and metric sample values are rationals (Python floats carry no
  claim-relevant rounding here), counters are integers.
-/

/-- Python exception classes that the embedded hooks can raise. -/
inductive PyErr where
  | attributeError
deriving DecidableEq, Repr

/-- One datagram sent to the statsd client: which API was called, the metric
name, the sample value and the tag list, in the order the source builds it. -/
inductive Emission where
  | histogram (nm : String) (value : ℚ) (tags : List String)
  | counter (nm : String) (value : ℤ) (tags : List String)
  | gauge (nm : String) (value : ℚ) (tags : List String)
  | distribution (nm : String) (value : ℚ) (tags : List String)
deriving DecidableEq, Repr

/-- The metric name of an emission. -/
def Emission.name : Emission → String
  | .histogram nm _ _ => nm
  | .counter nm _ _ => nm
  | .gauge nm _ _ => nm
  | .distribution nm _ _ => nm

/-- The tag list of an emission. -/
def Emission.tags : Emission → List String
  | .histogram _ _ ts => ts
  | .counter _ _ ts => ts
  | .gauge _ _ ts => ts
  | .distribution _ _ ts => ts

/-- The Flask request object as the hooks see it.  `path` and `method` always
exist; every other field is an ad-hoc attribute that request handlers may or
may not have stashed on the object, hence `Option`. -/
structure Request where
  path : String
  method : String
  start_time : Option ℚ := none
  business_value : Option ℚ := none
  args_size : Option ℤ := none
  cpu_execution_time : Option ℚ := none
  purchase_amount : Option ℚ := none
  processing_time : Option ℚ := none
  quantity : Option ℤ := none
  product_id : Option String := none
deriving DecidableEq, Repr

/-- The Flask response object; the hooks only read `status_code`. -/
structure Response where
  status_code : ℤ
deriving DecidableEq, Repr

/-- What an after-request hook produces when it terminates normally: the
emissions it sent, in order, and its return value (the response it passes
on to Flask). -/
abbrev HookResult := List Emission × Option Response

def PURCHASE_AMOUNT_METRIC : String := "ecommerce.purchase_amount"
def PURCHASE_COUNT_METRIC : String := "ecommerce.purchase_count"
def PROCESSING_TIME_METRIC : String := "ecommerce.processing_time"

def REQUEST_LATENCY_METRIC_NAME : String := "request_latency_seconds_hist"
def REQUEST_COUNT : String := "request_count"
def ERROR_COUNT : String := "error_count"
def BUSINESS_METRIC : String := "business_value"
def DB_QUERY_COUNT : String := "database_queries_total"
def MEMORY_USAGE_METRIC : String := "memory_usage_bytes"
def CPU_USAGE_METRIC : String := "cpu_usage_seconds"

/-- `start_timer`: stores the current time on the request object
(`request.start_time = time.time()`). -/
def start_timer (req : Request) (now : ℚ) : Request :=
  { req with start_time := some now }

/-- `stop_timer(response)`: computes `time.time() - request.start_time` and
sends one latency histogram.  A plain attribute access on a request without
`start_time`, or `response.status_code` on `None`, raises `AttributeError`;
the function has no exception handler. -/
def stop_timer (req : Request) (now : ℚ) (response : Option Response) :
    Except PyErr HookResult :=
  match req.start_time with
  | none => .error .attributeError
  | some t0 =>
    match response with
    | none => .error .attributeError
    | some r =>
      .ok ([.histogram REQUEST_LATENCY_METRIC_NAME (now - t0)
              ["service:webapp",
               "endpoint:" ++ req.path,
               "method:" ++ req.method,
               "status:" ++ toString r.status_code]],
           some r)

/-- `get_amount_range(amount)`: buckets a purchase amount into one of four
range labels. -/
def get_amount_range (amount : ℚ) : String :=
  if amount < 10 then "small"
  else if amount < 50 then "medium"
  else if amount < 200 then "large"
  else "premium"

/-- `record_request_data(response)`: always counts the request, counts an
error for 4xx/5xx statuses, counts a database query for three fixed paths,
and sends path-specific gauges.  `response.status_code` on `None` raises
`AttributeError`; the function has no exception handler. -/
def record_request_data (req : Request) (response : Option Response) :
    Except PyErr HookResult :=
  match response with
  | none => .error .attributeError
  | some r =>
    let es1 : List Emission :=
      [.counter REQUEST_COUNT 1
        ["service:webapp",
         "method:" ++ req.method,
         "endpoint:" ++ req.path,
         "status:" ++ toString r.status_code]]
    let es2 := if 400 ≤ r.status_code ∧ r.status_code < 600 then
        es1 ++ [.counter ERROR_COUNT 1
          ["service:webapp",
           "method:" ++ req.method,
           "endpoint:" ++ req.path,
           "status:" ++ toString r.status_code]]
      else es1
    let es3 := if req.path ∈ (["/users", "/database-query", "/health"] : List String) then
        es2 ++ [.counter DB_QUERY_COUNT 1
          ["service:webapp",
           "endpoint:" ++ req.path,
           "method:" ++ req.method]]
      else es2
    let es4 := if req.path = "/delay" then
        es3 ++ [.gauge BUSINESS_METRIC (req.business_value.getD 1)
          ["service:webapp", "metric_type:performance"]]
      else es3
    let es5 := if req.path = "/memory-usage" then
        let size_mb := req.args_size.getD 10
        es4 ++ [.gauge MEMORY_USAGE_METRIC ((size_mb * 1024 * 1024 : ℤ) : ℚ)
          ["service:webapp", "operation:memory_allocation"]]
      else es4
    let es6 := if req.path = "/cpu-intensive" then
        es5 ++ [.gauge CPU_USAGE_METRIC (req.cpu_execution_time.getD 0)
          ["service:webapp", "operation:cpu_intensive"]]
      else es5
    .ok (es6, some r)

/-- `record_purchase_metrics(response)`: returns `None` unchanged, otherwise
sends three purchase metrics for `POST /purchase` inside a `try/except` that
absorbs every exception (none of the embedded operations can raise: the
attribute reads use `getattr` with defaults and the statsd client is
fire-and-forget). -/
def record_purchase_metrics (req : Request) (response : Option Response) :
    Except PyErr HookResult :=
  match response with
  | none => .ok ([], none)
  | some r =>
    if req.path = "/purchase" ∧ req.method = "POST" then
      let purchase_amount := req.purchase_amount.getD 0
      let processing_time := req.processing_time.getD 0
      let quantity := req.quantity.getD 0
      let product_id := req.product_id.getD "unknown"
      .ok ([.gauge PURCHASE_AMOUNT_METRIC purchase_amount
              ["service:webapp",
               "currency:USD",
               "amount_range:" ++ get_amount_range purchase_amount,
               "product_id:" ++ product_id],
            .counter PURCHASE_COUNT_METRIC quantity
              ["service:webapp",
               "transaction_type:purchase",
               "product_id:" ++ product_id],
            .distribution PROCESSING_TIME_METRIC processing_time
              ["service:webapp", "operation:purchase"]],
           some r)
    else .ok ([], some r)

/-- Identifies the four hook functions for the registration model. -/
inductive HookId where
  | startTimer
  | stopTimer
  | recordRequestData
  | recordPurchaseMetrics
deriving DecidableEq, Repr

/-- The registration state of a Flask app: the lists of before-request and
after-request functions, in registration order. -/
structure FlaskApp where
  before_request_funcs : List HookId := []
  after_request_funcs : List HookId := []
deriving DecidableEq, Repr

/-- `setup_datadog_metrics(app)`: registers `start_timer` as a
before-request hook and `stop_timer`, `record_request_data`,
`record_purchase_metrics` as after-request hooks, in that registration
order. -/
def setup_datadog_metrics (app : FlaskApp) : FlaskApp :=
  { app with
    before_request_funcs := app.before_request_funcs ++ [.startTimer],
    after_request_funcs :=
      app.after_request_funcs ++ [.stopTimer, .recordRequestData, .recordPurchaseMetrics] }

/-- The order in which Flask actually runs after-request hooks on a
completed request: Flask's `process_response` iterates
`reversed(self.after_request_funcs)`, i.e. the reverse of registration
order (Flask documented behaviour, external to this repository). -/
def flask_after_request_order (app : FlaskApp) : List HookId :=
  app.after_request_funcs.reverse

/-- `true` iff the hook terminated normally (did not raise). -/
def hookOk (x : Except PyErr HookResult) : Bool :=
  match x with
  | .ok _ => true
  | .error _ => false

/-- The emissions a hook sent (empty when it raised before sending any). -/
def emissionsOf (x : Except PyErr HookResult) : List Emission :=
  match x with
  | .ok (es, _) => es
  | .error _ => []

/-- The value a hook returned (`none` also when it raised). -/
def returnOf (x : Except PyErr HookResult) : Option Response :=
  match x with
  | .ok (_, r) => r
  | .error _ => none

/-- Modelled from the spec: `MetricKey` (spec §3) is missing from `src/` —
the supplied middleware hands raw tag lists to the statsd client and never
builds a metric identity.  Per the spec, a MetricKey is "name + sorted tag
set": the metric name plus the (key, value) string pairs as an ordered
sequence, sorted lexicographically by key. -/
structure MetricKey where
  nm : String
  tags : List (String × String)
deriving DecidableEq, Repr

/-- Ordering of tag pairs by key, as the spec prescribes for MetricKey
normalization. -/
def keyLe (p q : String × String) : Prop := p.1 ≤ q.1

instance : DecidableRel keyLe :=
  fun p q => inferInstanceAs (Decidable (p.1 ≤ q.1))

instance : IsTotal (String × String) keyLe :=
  ⟨fun p q => le_total p.1 q.1⟩

instance : IsTrans (String × String) keyLe :=
  ⟨fun _ _ _ h1 h2 => le_trans h1 h2⟩

/-- Modelled from the spec: normalization of a tag mapping — sort the
(key, value) pairs lexicographically by key. -/
def normalizeTags (tags : List (String × String)) : List (String × String) :=
  List.insertionSort keyLe tags

/-- Modelled from the spec: the metric identity formed from a metric name
and a tag mapping. -/
def MetricKey.ofTags (n : String) (tags : List (String × String)) : MetricKey :=
  ⟨n, normalizeTags tags⟩

lemma eq_of_perm_of_sorted_of_nodup_keys :
    ∀ {l₁ l₂ : List (String × String)}, l₁.Perm l₂ →
      l₁.Sorted keyLe → l₂.Sorted keyLe → (l₁.map Prod.fst).Nodup → l₁ = l₂ := by
  intro l₁
  induction l₁ with
  | nil =>
    intro l₂ hp _ _ _
    exact hp.nil_eq
  | cons a t₁ ih =>
    intro l₂ hp hs₁ hs₂ hn
    cases l₂ with
    | nil => exact absurd hp.eq_nil (List.cons_ne_nil a t₁)
    | cons b t₂ =>
      simp only [List.map_cons, List.nodup_cons] at hn
      have hab : a = b := by
        by_contra hne
        have ha2 : a ∈ t₂ := by
          rcases List.mem_cons.mp (hp.subset (List.mem_cons_self a t₁)) with h | h
          · exact absurd h hne
          · exact h
        have hb1 : b ∈ t₁ := by
          rcases List.mem_cons.mp (hp.symm.subset (List.mem_cons_self b t₂)) with h | h
          · exact absurd h.symm hne
          · exact h
        have h1 : keyLe a b := (List.sorted_cons.mp hs₁).1 b hb1
        have h2 : keyLe b a := (List.sorted_cons.mp hs₂).1 a ha2
        have hkey : a.1 = b.1 := le_antisymm h1 h2
        exact hn.1 (hkey ▸ List.mem_map_of_mem Prod.fst hb1)
      subst hab
      have ht := ih hp.cons_inv (List.sorted_cons.mp hs₁).2
        (List.sorted_cons.mp hs₂).2 hn.2
      rw [ht]

lemma normalizeTags_eq_of_perm {l₁ l₂ : List (String × String)}
    (hp : l₁.Perm l₂) (hn : (l₁.map Prod.fst).Nodup) :
    normalizeTags l₁ = normalizeTags l₂ :=
  eq_of_perm_of_sorted_of_nodup_keys
    ((List.perm_insertionSort keyLe l₁).trans
      (hp.trans (List.perm_insertionSort keyLe l₂).symm))
    (List.sorted_insertionSort keyLe l₁)
    (List.sorted_insertionSort keyLe l₂)
    (((List.perm_insertionSort keyLe l₁).map Prod.fst).symm.nodup hn)

/-- A GET /health request carrying a recorded start timestamp. -/
def reqHealth : Request := { path := "/health", method := "GET", start_time := some 2 }

/-- A POST /purchase request with stashed purchase attributes. -/
def reqPurchase : Request :=
  { path := "/purchase", method := "POST", start_time := some 2,
    purchase_amount := some 25, processing_time := some 1, quantity := some 3,
    product_id := some "sku42" }

/-- A successful response. -/
def resp200 : Response := ⟨200⟩

/-- A server-error response. -/
def resp503 : Response := ⟨503⟩

/-- C3: `start_timer` records the start timestamp on the request context,
and `stop_timer` then emits exactly one latency histogram sample valued
`now − start`, tagged with exactly the four tags service, endpoint (the
request path), method, and status (the response status code). -/
theorem timer_latency_histogram (req : Request) (t0 now : ℚ) (r : Response) :
    (start_timer req t0).start_time = some t0 ∧
    stop_timer (start_timer req t0) now (some r) =
      .ok ([.histogram REQUEST_LATENCY_METRIC_NAME (now - t0)
              ["service:webapp",
               "endpoint:" ++ req.path,
               "method:" ++ req.method,
               "status:" ++ toString r.status_code]],
           some r) :=
  ⟨rfl, rfl⟩

/-- C8: `get_amount_range` is total on rational inputs and returns exactly
one of the four labels: "small" below 10, "medium" in [10, 50), "large" in
[50, 200), "premium" from 200 up. -/
theorem get_amount_range_buckets (amount : ℚ) :
    (amount < 10 → get_amount_range amount = "small") ∧
    (10 ≤ amount → amount < 50 → get_amount_range amount = "medium") ∧
    (50 ≤ amount → amount < 200 → get_amount_range amount = "large") ∧
    (200 ≤ amount → get_amount_range amount = "premium") ∧
    (get_amount_range amount = "small" ∨ get_amount_range amount = "medium" ∨
     get_amount_range amount = "large" ∨ get_amount_range amount = "premium") := by
  unfold get_amount_range
  split_ifs with h1 h2 h3 <;>
    refine ⟨?_, ?_, ?_, ?_, ?_⟩ <;> intros <;> first | rfl | tauto | linarith

/-- Witness for C8 at a representative input in each bucket. -/
theorem get_amount_range_buckets_witness :
    get_amount_range 7 = "small" ∧ get_amount_range 42 = "medium" ∧
    get_amount_range 120 = "large" ∧ get_amount_range 999 = "premium" :=
  ⟨(get_amount_range_buckets 7).1 (by norm_num),
   (get_amount_range_buckets 42).2.1 (by norm_num) (by norm_num),
   (get_amount_range_buckets 120).2.2.1 (by norm_num) (by norm_num),
   (get_amount_range_buckets 999).2.2.2.1 (by norm_num)⟩

/-- C6 fails on the code: Flask runs after-request functions in reverse
registration order, so the order established by `setup_datadog_metrics`
runs `record_purchase_metrics`, then `record_request_data`, then
`stop_timer` — `stop_timer` runs last, not before `record_request_data`. -/
theorem after_request_execution_order :
    flask_after_request_order (setup_datadog_metrics ⟨[], []⟩) =
      [.recordPurchaseMetrics, .recordRequestData, .stopTimer] ∧
    (flask_after_request_order (setup_datadog_metrics ⟨[], []⟩)).getLast? =
      some .stopTimer := by
  constructor <;> rfl

/-- C7: for every metric name and every tag mapping — a list of (key, value)
pairs whose keys are pairwise distinct — the MetricKey formed from the
mapping equals the MetricKey formed from any permutation of it. -/
theorem metricKey_tag_order_invariance (n : String)
    (l₁ l₂ : List (String × String)) (hp : l₁.Perm l₂)
    (hn : (l₁.map Prod.fst).Nodup) :
    MetricKey.ofTags n l₁ = MetricKey.ofTags n l₂ := by
  unfold MetricKey.ofTags
  rw [normalizeTags_eq_of_perm hp hn]

/-- Witness for C7: two orderings of the same two-tag mapping. -/
theorem metricKey_tag_order_invariance_witness :
    ([("env", "prod"), ("service", "webapp")] : List (String × String)).Perm
        [("service", "webapp"), ("env", "prod")] ∧
    (([("env", "prod"), ("service", "webapp")] : List (String × String)).map
        Prod.fst).Nodup ∧
    MetricKey.ofTags "request_count" [("env", "prod"), ("service", "webapp")] =
      MetricKey.ofTags "request_count" [("service", "webapp"), ("env", "prod")] :=
  ⟨by decide, by decide,
   metricKey_tag_order_invariance "request_count" _ _ (by decide) (by decide)⟩

/-- C1 fails on the code: `stop_timer` dereferences
`response.status_code` with no exception handler, so a `None` response
makes the hook raise `AttributeError` to its caller. -/
theorem stop_timer_raises_on_none_response :
    stop_timer reqHealth 3 none = .error .attributeError := rfl

/-- C1 amended: `start_timer` and `record_purchase_metrics` never raise,
for any request and any response state; `stop_timer` and
`record_request_data` terminate normally provided the response is not None
and a start timestamp was recorded. -/
theorem hooks_no_raise_amended (req : Request) (now : ℚ)
    (response : Option Response) :
    hookOk (record_purchase_metrics req response) = true ∧
    (req.start_time ≠ none → response ≠ none →
      hookOk (stop_timer req now response) = true ∧
      hookOk (record_request_data req response) = true) := by
  obtain ⟨p, m, st, bv, as, ce, pa, pt, q, pid⟩ := req
  constructor
  · cases response with
    | none => rfl
    | some r =>
      simp only [record_purchase_metrics]
      split <;> rfl
  · intro hst hresp
    cases st with
    | none => exact absurd rfl hst
    | some t0 =>
      cases response with
      | none => exact absurd rfl hresp
      | some r => exact ⟨rfl, rfl⟩

/-- Witness for C1 amended at a concrete request and response. -/
theorem hooks_no_raise_amended_witness :
    hookOk (record_purchase_metrics reqHealth (some resp200)) = true ∧
    hookOk (stop_timer reqHealth 3 (some resp200)) = true ∧
    hookOk (record_request_data reqHealth (some resp200)) = true :=
  ⟨(hooks_no_raise_amended reqHealth 3 (some resp200)).1,
   ((hooks_no_raise_amended reqHealth 3 (some resp200)).2 (by decide) (by decide)).1,
   ((hooks_no_raise_amended reqHealth 3 (some resp200)).2 (by decide) (by decide)).2⟩

/-- C2 fails on the code: `record_request_data` given a `None` response
raises `AttributeError` instead of returning the response it was given. -/
theorem record_request_data_raises_on_none_response :
    record_request_data reqHealth none = .error .attributeError := rfl

/-- C2 amended: whenever an after-request hook terminates normally it
returns exactly the response object it was given, unmodified;
`record_purchase_metrics` does so in every case, including a None
response. -/
theorem hooks_return_response_amended (req : Request) (now : ℚ)
    (response : Option Response) :
    (∀ es rr, stop_timer req now response = .ok (es, rr) → rr = response) ∧
    (∀ es rr, record_request_data req response = .ok (es, rr) → rr = response) ∧
    returnOf (record_purchase_metrics req response) = response := by
  obtain ⟨p, m, st, bv, as, ce, pa, pt, q, pid⟩ := req
  refine ⟨?_, ?_, ?_⟩
  · intro es rr h
    cases st with
    | none => exact absurd h (by simp [stop_timer])
    | some t0 =>
      cases response with
      | none => exact absurd h (by simp [stop_timer])
      | some r =>
        simp only [stop_timer, Except.ok.injEq, Prod.mk.injEq] at h
        exact h.2.symm
  · intro es rr h
    cases response with
    | none => exact absurd h (by simp [record_request_data])
    | some r =>
      simp only [record_request_data, Except.ok.injEq, Prod.mk.injEq] at h
      exact h.2.symm
  · cases response with
    | none => rfl
    | some r =>
      simp only [record_purchase_metrics]
      split <;> rfl

/-- Witness for C2 amended at a concrete request and response. -/
theorem hooks_return_response_amended_witness :
    (some resp503 : Option Response) = some resp503 ∧
    returnOf (record_purchase_metrics reqHealth (some resp503)) = some resp503 :=
  ⟨(hooks_return_response_amended reqHealth 3 (some resp503)).1
      (emissionsOf (stop_timer reqHealth 3 (some resp503))) (some resp503) rfl,
   (hooks_return_response_amended reqHealth 3 (some resp503)).2.2⟩

/-- C4: for every completed request, `record_request_data` emits exactly one
request-count increment, and emits an error-count increment iff the numeric
status code lies in 400..599 inclusive. -/
theorem request_and_error_counts (req : Request) (r : Response) :
    ((emissionsOf (record_request_data req (some r))).countP
        (fun e => e.name == REQUEST_COUNT) = 1) ∧
    (((emissionsOf (record_request_data req (some r))).countP
        (fun e => e.name == ERROR_COUNT) = 1) ↔
      (400 ≤ r.status_code ∧ r.status_code ≤ 599)) := by
  obtain ⟨p, m, st, bv, as, ce, pa, pt, q, pid⟩ := req
  obtain ⟨sc⟩ := r
  simp only [record_request_data, emissionsOf]
  split_ifs with h1 h2 h3 h4 h5 <;>
    simp [Emission.name, REQUEST_COUNT, ERROR_COUNT, DB_QUERY_COUNT,
      BUSINESS_METRIC, MEMORY_USAGE_METRIC, CPU_USAGE_METRIC,
      List.countP_append, List.countP_cons] <;>
    omega

/-- Witness for C4 on a 503 response to GET /health. -/
theorem request_and_error_counts_witness :
    (emissionsOf (record_request_data reqHealth (some resp503))).countP
        (fun e => e.name == REQUEST_COUNT) = 1 ∧
    (emissionsOf (record_request_data reqHealth (some resp503))).countP
        (fun e => e.name == ERROR_COUNT) = 1 :=
  ⟨(request_and_error_counts reqHealth resp503).1,
   (request_and_error_counts reqHealth resp503).2.mpr (by decide)⟩

/-- C10: `record_request_data` emits a database-query count iff the request
path is one of /users, /database-query, /health — regardless of everything
else about the request and response. -/
theorem db_query_count_iff_path (req : Request) (r : Response) :
    ((emissionsOf (record_request_data req (some r))).countP
        (fun e => e.name == DB_QUERY_COUNT) = 1) ↔
      (req.path = "/users" ∨ req.path = "/database-query" ∨
        req.path = "/health") := by
  obtain ⟨p, m, st, bv, as, ce, pa, pt, q, pid⟩ := req
  obtain ⟨sc⟩ := r
  simp only [record_request_data, emissionsOf]
  split_ifs with h1 h2 h3 h4 h5 <;>
    simp_all [Emission.name, REQUEST_COUNT, ERROR_COUNT, DB_QUERY_COUNT,
      BUSINESS_METRIC, MEMORY_USAGE_METRIC, CPU_USAGE_METRIC,
      List.countP_append, List.countP_cons]

/-- Witness for C10: the /health path triggers the database-query count. -/
theorem db_query_count_iff_path_witness :
    (emissionsOf (record_request_data reqHealth (some resp200))).countP
        (fun e => e.name == DB_QUERY_COUNT) = 1 :=
  (db_query_count_iff_path reqHealth resp200).mpr (by decide)

/-- C5: the tag list on the request-count increment (the first emission of
`record_request_data`) is a permutation — hence the same tag set — of the
tag list on the latency histogram that `stop_timer` emits for the same
request and response. -/
theorem count_and_latency_tags_agree (req : Request) (t0 now : ℚ)
    (r : Response) :
    emissionsOf (stop_timer (start_timer req t0) now (some r)) =
      [.histogram REQUEST_LATENCY_METRIC_NAME (now - t0)
        ["service:webapp",
         "endpoint:" ++ req.path,
         "method:" ++ req.method,
         "status:" ++ toString r.status_code]] ∧
    (emissionsOf (record_request_data req (some r))).head? =
      some (.counter REQUEST_COUNT 1
        ["service:webapp",
         "method:" ++ req.method,
         "endpoint:" ++ req.path,
         "status:" ++ toString r.status_code]) ∧
    List.Perm
      ["service:webapp",
       "method:" ++ req.method,
       "endpoint:" ++ req.path,
       "status:" ++ toString r.status_code]
      ["service:webapp",
       "endpoint:" ++ req.path,
       "method:" ++ req.method,
       "status:" ++ toString r.status_code] := by
  refine ⟨rfl, ?_, ?_⟩
  · obtain ⟨p, m, st, bv, as, ce, pa, pt, q, pid⟩ := req
    simp only [record_request_data, emissionsOf]
    split_ifs <;> rfl
  · exact List.Perm.cons _ (List.Perm.swap _ _ _)

/-- C9: `record_purchase_metrics` emits exactly its three purchase metrics
(amount gauge, count counter incremented by the request's quantity,
processing-time distribution) when the response is non-None, the path is
/purchase and the method is POST; in every other case it emits no metric at
all. -/
theorem purchase_metrics_iff (req : Request) (response : Option Response) :
    (∀ r, response = some r → req.path = "/purchase" → req.method = "POST" →
      record_purchase_metrics req response =
        .ok ([.gauge PURCHASE_AMOUNT_METRIC (req.purchase_amount.getD 0)
                ["service:webapp",
                 "currency:USD",
                 "amount_range:" ++ get_amount_range (req.purchase_amount.getD 0),
                 "product_id:" ++ req.product_id.getD "unknown"],
              .counter PURCHASE_COUNT_METRIC (req.quantity.getD 0)
                ["service:webapp",
                 "transaction_type:purchase",
                 "product_id:" ++ req.product_id.getD "unknown"],
              .distribution PROCESSING_TIME_METRIC (req.processing_time.getD 0)
                ["service:webapp", "operation:purchase"]],
             some r)) ∧
    (¬(response ≠ none ∧ req.path = "/purchase" ∧ req.method = "POST") →
      emissionsOf (record_purchase_metrics req response) = []) := by
  constructor
  · intro r hr hp hm
    subst hr
    simp [record_purchase_metrics, hp, hm]
  · intro hno
    cases response with
    | none => rfl
    | some r =>
      simp only [ne_eq, not_and, not_not] at hno
      have hcond : ¬(req.path = "/purchase" ∧ req.method = "POST") := by
        intro hc
        exact absurd ((hno (by simp)) hc.1) (by simp [hc.2])
      simp [record_purchase_metrics, emissionsOf, hcond]

/-- Witness for C9: a POST /purchase request emits the three metrics; a GET
/health request emits none. -/
theorem purchase_metrics_iff_witness :
    record_purchase_metrics reqPurchase (some resp200) =
      .ok ([.gauge PURCHASE_AMOUNT_METRIC 25
              ["service:webapp", "currency:USD", "amount_range:medium",
               "product_id:sku42"],
            .counter PURCHASE_COUNT_METRIC 3
              ["service:webapp", "transaction_type:purchase",
               "product_id:sku42"],
            .distribution PROCESSING_TIME_METRIC 1
              ["service:webapp", "operation:purchase"]],
           some resp200) ∧
    emissionsOf (record_purchase_metrics reqHealth (some resp200)) = [] :=
  ⟨(purchase_metrics_iff reqPurchase (some resp200)).1 resp200 rfl rfl rfl,
   (purchase_metrics_iff reqHealth (some resp200)).2 (by decide)⟩
